import Mathlib

/-!
# Verification of the JavaScript-semantics walkthrough repository

The repository is a collection of annotated JavaScript script files that
demonstrate core language semantics: variable declaration forms (`var` /
`let` / `const`), scoping and hoisting, type coercion, loose vs strict
equality, destructuring with rest patterns, spread copies, bitwise tricks
and logical operators.  Each script prints concrete expressions together
with a trailing comment annotating the expected printed value.

This file shallowly embeds the fragment of JavaScript semantics that those
scripts exercise — the ECMAScript abstract operations `ToNumber`,
`ToString`, `ToBoolean`, `ToPrimitive`, `ToInt32`, abstract (loose) and
strict equality, logical operators with short-circuit evaluation, object
spread / rest destructuring over association-list objects, a small heap
model for reference sharing and `const` bindings, and a small statement
interpreter with `var` hoisting and the temporal dead zone for `let` /
`const` — and proves the scripts' annotated outputs against it.

Numbers are modelled as `ℚ` plus an explicit `NaN`: every numeric literal
appearing in the embedded scripts is exactly representable, so no
floating-point rounding is involved in any claim checked here (infinities
never occur in the embedded fragments and are omitted).
-/

namespace JS

/-- A JavaScript number: either `NaN` or a (finite) numeric value,
modelled as a rational.  All literals in the embedded scripts are exact
in this model. -/
inductive JSNum where
  | nan
  | val (q : ℚ)
deriving DecidableEq, Repr

/-- A primitive JavaScript value: `undefined`, `null`, a boolean, a
number or a string. -/
inductive JSPrim where
  | undef
  | null
  | bool (b : Bool)
  | num (n : JSNum)
  | str (s : String)
deriving DecidableEq, Repr

/-- A JavaScript value as used by the pure-expression examples: a
primitive, or an array literal.  Every array the coercion and equality
examples use (`[]`, `[null]`, `[1]`, `[1,2]`) has primitive elements, so
elements are primitives here.  An array literal stands for a fresh
object reference: two distinct literals are never the same reference. -/
inductive JSVal where
  | undef
  | null
  | bool (b : Bool)
  | num (n : JSNum)
  | str (s : String)
  | arr (elems : List JSPrim)
deriving DecidableEq, Repr

/-! ## ToString -/

/-- Decimal rendering of an integer, as JavaScript's `ToString` produces
on integral numbers (every number the embedded scripts stringify is
integral, so the general shortest-round-trip algorithm is not needed). -/
def intToString (i : ℤ) : String :=
  if i < 0 then "-" ++ toString i.natAbs else toString i.natAbs

/-- `ToString` on a number.  The scripts only ever stringify `NaN` and
integral values; a non-integral rational is rendered with a marker that
never collides with a digit string. -/
def numToString (n : JSNum) : String :=
  match n with
  | .nan => "NaN"
  | .val q => if q.den = 1 then intToString q.num else "#nonIntegral"

/-- `ToString` of a primitive. -/
def primToString : JSPrim → String
  | .undef => "undefined"
  | .null => "null"
  | .bool b => if b then "true" else "false"
  | .num n => numToString n
  | .str s => s

/-- One array element inside `Array.prototype.join`: `undefined` and
`null` elements become the empty string. -/
def elemToString : JSPrim → String
  | .undef => ""
  | .null => ""
  | v => primToString v

/-- Comma-join of array elements, `Array.prototype.toString`. -/
def joinElems : List JSPrim → String
  | [] => ""
  | [x] => elemToString x
  | x :: xs => elemToString x ++ "," ++ joinElems xs

/-- `ToString` of a value; an array goes through
`Array.prototype.toString`. -/
def jsToString : JSVal → String
  | .undef => "undefined"
  | .null => "null"
  | .bool b => if b then "true" else "false"
  | .num n => numToString n
  | .str s => s
  | .arr l => joinElems l

/-! ## ToNumber -/

/-- Parse a nonempty run of decimal digits; `none` when a non-digit
appears or the run is empty. -/
def parseDigits : List Char → Option ℕ
  | [] => none
  | cs => go cs 0
where
  go : List Char → ℕ → Option ℕ
  | [], acc => some acc
  | c :: cs, acc =>
      if c.isDigit then go cs (acc * 10 + (c.toNat - 48)) else none

/-- ECMAScript `StringToNumber`, restricted to the decimal integer
literals (with optional sign and surrounding whitespace) that the
scripts feed it: the trimmed empty string is `0`, a signed digit run is
its value, anything else is `NaN`. -/
def strToNum (s : String) : JSNum :=
  let t := (s.data.dropWhile Char.isWhitespace).reverse.dropWhile Char.isWhitespace |>.reverse
  match t with
  | [] => .val 0
  | '-' :: rest =>
      match parseDigits rest with
      | some n => .val (-(n : ℚ))
      | none => .nan
  | '+' :: rest =>
      match parseDigits rest with
      | some n => .val (n : ℚ)
      | none => .nan
  | l =>
      match parseDigits l with
      | some n => .val (n : ℚ)
      | none => .nan

/-- ECMAScript `ToPrimitive` on the values above: an array (an object
with no own `Symbol.toPrimitive` or `valueOf` returning a primitive)
falls through to `Array.prototype.toString`; primitives are themselves. -/
def toPrim : JSVal → JSVal
  | .arr l => .str (joinElems l)
  | v => v

/-- ECMAScript `ToNumber`: `undefined → NaN`, `null → 0`, booleans to
`1` / `0`, strings via `StringToNumber`, arrays via `ToPrimitive` (their
string form) and then `StringToNumber`.  This is what `Number(x)` and
the numeric operators apply. -/
def toNumber : JSVal → JSNum
  | .undef => .nan
  | .null => .val 0
  | .bool b => .val (if b then 1 else 0)
  | .num n => n
  | .str s => strToNum s
  | .arr l => strToNum (joinElems l)

/-- ECMAScript `ToBoolean`: exactly `false`, `±0`, `NaN`, `""`, `null`
and `undefined` are falsy; every object (array) is truthy. -/
def toBoolean : JSVal → Bool
  | .undef => false
  | .null => false
  | .bool b => b
  | .num .nan => false
  | .num (.val q) => q ≠ 0
  | .str s => s ≠ ""
  | .arr _ => true

/-! ## Equality -/

/-- Numeric equality: `NaN` is equal to nothing, including itself. -/
def numEq : JSNum → JSNum → Bool
  | .nan, _ => false
  | _, .nan => false
  | .val p, .val q => p = q

/-- ECMAScript strict equality (`===`): no coercion; operands of
different types are never equal; `NaN === NaN` is false; two array
literals are distinct references and compare unequal. -/
def strictEq : JSVal → JSVal → Bool
  | .undef, .undef => true
  | .null, .null => true
  | .bool a, .bool b => a = b
  | .num m, .num n => numEq m n
  | .str a, .str b => a = b
  | .arr _, .arr _ => false
  | _, _ => false

/-- Replace a boolean operand by its numeric value, the first step the
abstract equality comparison applies to a boolean operand. -/
def deBool : JSVal → JSVal
  | .bool b => .num (.val (if b then 1 else 0))
  | v => v

/-- ECMAScript abstract (loose) equality (`==`): `null` and `undefined`
equal each other and nothing else; a boolean operand is converted with
`ToNumber`; an object (array) operand facing a number or string is
converted with `ToPrimitive`; a remaining number–string pair converts
the string with `ToNumber`; two array literals are distinct references. -/
def looseEq (a b : JSVal) : Bool :=
  match a, b with
  | .arr _, .arr _ => false
  | _, _ =>
    match deBool (toPrim a), deBool (toPrim b) with
    | .undef, .undef => true
    | .undef, .null => true
    | .null, .undef => true
    | .null, .null => true
    | .undef, _ => false
    | _, .undef => false
    | .null, _ => false
    | _, .null => false
    | .num m, .num n => numEq m n
    | .num m, .str s => numEq m (strToNum s)
    | .str s, .num n => numEq (strToNum s) n
    | .str s, .str t => s = t
    | _, _ => false

/-! ## ToInt32 and the bitwise operators -/

/-- Truncation toward zero of a rational (ECMAScript `truncate`):
`Int.div` rounds toward zero, and a `ℚ` is stored in lowest terms with a
positive denominator. -/
def ratTrunc (q : ℚ) : ℤ := Int.tdiv q.num q.den

/-- Floor of a rational: `Int.fdiv` rounds toward negative infinity. -/
def ratFloor (q : ℚ) : ℤ := Int.fdiv q.num q.den

/-- Reinterpret an integer modulo `2^32` as a signed 32-bit integer
(the final step of ECMAScript `ToInt32`). -/
def asInt32 (m : ℤ) : ℤ :=
  if m % 4294967296 < 2147483648 then m % 4294967296 else m % 4294967296 - 4294967296

/-- ECMAScript `ToInt32`: `NaN` becomes `0`, a finite value is truncated
toward zero and wrapped into `[-2^31, 2^31)`. -/
def toInt32 (n : JSNum) : ℤ :=
  match n with
  | .nan => 0
  | .val q => asInt32 (ratTrunc q)

/-- ECMAScript `ToUint32`. -/
def toUint32 (n : JSNum) : ℤ :=
  match n with
  | .nan => 0
  | .val q => ratTrunc q % 4294967296

/-- The unsigned 32-bit representation of a signed 32-bit integer. -/
def int32ToUint (x : ℤ) : ℕ := (x % 4294967296).toNat

/-- JavaScript `~n`: two's-complement bitwise NOT of `ToInt32(n)`. -/
def jsBitNot (n : JSNum) : ℤ := -(toInt32 n) - 1

/-- JavaScript `~~n`: the outer `~` converts the (integral) result of
the inner `~` with `ToInt32` again and complements it. -/
def jsDoubleNot (n : JSNum) : ℤ := -(toInt32 (.val (jsBitNot n))) - 1

/-- JavaScript `a | b`: bitwise OR of the two operands' `ToInt32`
images, read back as a signed 32-bit integer. -/
def jsBitOr (a b : JSNum) : ℤ :=
  asInt32 ((int32ToUint (toInt32 a) ||| int32ToUint (toInt32 b) : ℕ) : ℤ)

/-- JavaScript `a & b`: bitwise AND on the `ToInt32` images. -/
def jsBitAnd (a b : JSNum) : ℤ :=
  asInt32 ((int32ToUint (toInt32 a) &&& int32ToUint (toInt32 b) : ℕ) : ℤ)

/-- JavaScript `a << b`: shift `ToInt32(a)` left by `ToUint32(b) mod 32`
bits and reinterpret as a signed 32-bit integer. -/
def jsShl (a b : JSNum) : ℤ :=
  asInt32 (((int32ToUint (toInt32 a)) <<< ((toUint32 b).toNat % 32) : ℕ) : ℤ)

/-- JavaScript `a >> b`: sign-propagating right shift, i.e. floor
division of `ToInt32(a)` by `2 ^ (ToUint32(b) mod 32)`. -/
def jsSar (a b : JSNum) : ℤ :=
  Int.fdiv (toInt32 a) (2 ^ ((toUint32 b).toNat % 32))

/-- `Math.floor`. -/
def mathFloor (n : JSNum) : JSNum :=
  match n with
  | .nan => .nan
  | .val q => .val (ratFloor q)

/-! ## Logical operators and short-circuit evaluation -/

/-- JavaScript `a || b` on already-evaluated operand values: the first
operand when it is truthy, the second otherwise. -/
def jsOr (a b : JSVal) : JSVal := if toBoolean a then a else b

/-- JavaScript `a && b` on already-evaluated operand values: the first
operand when it is falsy, the second otherwise. -/
def jsAnd (a b : JSVal) : JSVal := if toBoolean a then b else a

/-- Expressions for the short-circuiting demonstration in the logical
operators script: literals, `||`, `&&`, and a call of a function whose
body logs one line and returns a value (`expensiveOperation`). -/
inductive EExpr where
  | lit (v : JSVal)
  | orE (a b : EExpr)
  | andE (a b : EExpr)
  | callLog (msg : String) (ret : JSVal)

/-- Evaluate an expression, returning its value together with the list
of console lines printed during the evaluation.  `||` and `&&` evaluate
their left operand first and evaluate the right operand only when the
left one does not already decide the result. -/
def evalE : EExpr → JSVal × List String
  | .lit v => (v, [])
  | .orE a b =>
      let r := evalE a
      if toBoolean r.1 then r
      else
        let s := evalE b
        (s.1, r.2 ++ s.2)
  | .andE a b =>
      let r := evalE a
      if toBoolean r.1 then
        let s := evalE b
        (s.1, r.2 ++ s.2)
      else r
  | .callLog m r => (r, [m])

/-- `expensiveOperation` from the logical-operators script: it logs
`"   (Expensive operation was called!)"` and returns `true`. -/
def expensiveOperation : EExpr :=
  .callLog "   (Expensive operation was called!)" (.bool true)

/-! ## Supporting lemmas for `ToInt32` -/

theorem ratTrunc_intCast (x : ℤ) : ratTrunc (x : ℚ) = x := by
  unfold ratTrunc
  simp [Int.tdiv_one]

theorem ratTrunc_natCast (n : ℕ) : ratTrunc (n : ℚ) = n := by
  simpa using ratTrunc_intCast n

theorem asInt32_bounds (m : ℤ) :
    -2147483648 ≤ asInt32 m ∧ asInt32 m < 2147483648 := by
  unfold asInt32
  omega

theorem asInt32_of_range {m : ℤ} (h1 : -2147483648 ≤ m) (h2 : m < 2147483648) :
    asInt32 m = m := by
  unfold asInt32
  omega

theorem asInt32_uint {x : ℤ} (h1 : -2147483648 ≤ x) (h2 : x < 2147483648) :
    asInt32 ((int32ToUint x : ℕ) : ℤ) = x := by
  unfold int32ToUint asInt32
  rw [Int.toNat_of_nonneg (by omega)]
  omega

theorem jsDoubleNot_eq_toInt32 (q : ℚ) : jsDoubleNot (.val q) = toInt32 (.val q) := by
  have hb := asInt32_bounds (ratTrunc q)
  simp only [jsDoubleNot, jsBitNot, toInt32, ratTrunc_intCast]
  rw [asInt32_of_range (by omega) (by omega)]
  omega

theorem jsBitOr_zero_eq_toInt32 (q : ℚ) : jsBitOr (.val q) (.val 0) = toInt32 (.val q) := by
  have hb := asInt32_bounds (ratTrunc q)
  have h0 : ratTrunc (0 : ℚ) = 0 := rfl
  simp only [jsBitOr, toInt32, h0]
  have hu : int32ToUint (asInt32 0) = 0 := rfl
  rw [hu, Nat.or_zero]
  exact asInt32_uint hb.1 hb.2

theorem int32ToUint_natCast {n : ℕ} (h : (n : ℤ) < 4294967296) :
    int32ToUint (n : ℤ) = n := by
  unfold int32ToUint
  rw [Int.emod_eq_of_lt (by omega) (by omega)]
  exact Int.toNat_natCast n

theorem uintShift_toNat {k : ℕ} (h : (k : ℤ) < 4294967296) :
    ((k : ℤ) % 4294967296).toNat = k := by
  rw [Int.emod_eq_of_lt (by omega) (by omega)]
  exact Int.toNat_natCast k

theorem jsShl_eq (n k : ℕ) (hk : k < 32) (hn : (n : ℤ) * 2 ^ k < 2147483648) :
    jsShl (.val n) (.val k) = (n : ℤ) * 2 ^ k := by
  have h2k : (0 : ℤ) < 2 ^ k := by positivity
  have hn31 : (n : ℤ) < 2147483648 := by nlinarith [Int.natCast_nonneg n]
  simp only [jsShl, toInt32, toUint32]
  rw [ratTrunc_natCast, ratTrunc_natCast]
  rw [@asInt32_of_range (n : ℤ) (by omega) (by omega)]
  rw [int32ToUint_natCast (by omega), uintShift_toNat (by omega)]
  rw [Nat.mod_eq_of_lt hk, Nat.shiftLeft_eq]
  rw [@asInt32_of_range ((n * 2 ^ k : ℕ) : ℤ) (by omega) (by push_cast; exact hn)]
  push_cast
  ring

theorem jsSar_eq (n k : ℕ) (hn : (n : ℤ) < 2147483648) (hk : k < 32) :
    jsSar (.val n) (.val k) = ((n / 2 ^ k : ℕ) : ℤ) := by
  simp only [jsSar, toInt32, toUint32]
  rw [ratTrunc_natCast, ratTrunc_natCast]
  rw [@asInt32_of_range (n : ℤ) (by omega) (by omega)]
  rw [uintShift_toNat (by omega), Nat.mod_eq_of_lt hk]
  rw [Int.fdiv_eq_ediv _ (by positivity)]
  rw [show ((2 : ℤ)) ^ k = ((2 ^ k : ℕ) : ℤ) by push_cast; ring]
  rw [← Int.natCast_div]

theorem ratTrunc_49_10 : ratTrunc (49 / 10 : ℚ) = 4 := by
  unfold ratTrunc
  rw [show ((49 : ℚ) / 10).num = 49 by norm_num, show ((49 : ℚ) / 10).den = 10 by norm_num]
  decide

theorem ratTrunc_neg_49_10 : ratTrunc (-49 / 10 : ℚ) = -4 := by
  unfold ratTrunc
  rw [show ((-49 : ℚ) / 10).num = -49 by norm_num, show ((-49 : ℚ) / 10).den = 10 by norm_num]
  decide

theorem ratTrunc_neg_37_10 : ratTrunc (-37 / 10 : ℚ) = -3 := by
  unfold ratTrunc
  rw [show ((-37 : ℚ) / 10).num = -37 by norm_num, show ((-37 : ℚ) / 10).den = 10 by norm_num]
  decide

theorem ratFloor_neg_49_10 : ratFloor (-49 / 10 : ℚ) = -5 := by
  unfold ratFloor
  rw [show ((-49 : ℚ) / 10).num = -49 by norm_num, show ((-49 : ℚ) / 10).den = 10 by norm_num]
  decide

theorem evalE_orE_short {a : EExpr} (b : EExpr) (h : toBoolean (evalE a).1 = true) :
    evalE (.orE a b) = evalE a := by
  simp [evalE, h]

theorem evalE_andE_short {a : EExpr} (b : EExpr) (h : toBoolean (evalE a).1 = false) :
    evalE (.andE a b) = evalE a := by
  simp [evalE, h]

/-- **C4**: the numeric conversion applied by `Number()` and the numeric
operators maps `"42"` to `42`, `""` to `0`, `"foo"` to `NaN`, `true` to
`1`, `false` to `0`, `null` to `0`, `undefined` to `NaN`, and the empty
array to `0` — the latter because `[]` first converts to the string `""`
(whose numeric value is `0`). -/
theorem C4_number_conversion :
    toNumber (.str "42") = .val 42 ∧
    toNumber (.str "") = .val 0 ∧
    toNumber (.str "foo") = .nan ∧
    toNumber (.bool true) = .val 1 ∧
    toNumber (.bool false) = .val 0 ∧
    toNumber .null = .val 0 ∧
    toNumber .undef = .nan ∧
    toNumber (.arr []) = .val 0 ∧
    joinElems [] = "" ∧ strToNum "" = .val 0 := by
  decide

/-- **C5**: loose equality coerces while strict equality does not:
`[] == false`, `"0" == false`, `[null] == 0`, `"42" == 42` and
`null == undefined` are all `true`; `[] === false`, `false === "0"` and
`null === undefined` are `false`; `null == false` is `false`; and
`NaN === NaN` is `false`. -/
theorem C5_equality_coercion :
    looseEq (.arr []) (.bool false) = true ∧
    looseEq (.str "0") (.bool false) = true ∧
    looseEq (.arr [.null]) (.num (.val 0)) = true ∧
    looseEq (.str "42") (.num (.val 42)) = true ∧
    looseEq .null .undef = true ∧
    strictEq (.arr []) (.bool false) = false ∧
    strictEq (.bool false) (.str "0") = false ∧
    strictEq .null .undef = false ∧
    looseEq .null (.bool false) = false ∧
    strictEq (.num .nan) (.num .nan) = false := by
  decide

/-- **C6**: `a || b` evaluates to `a` when `a` is truthy and to `b`
otherwise, `a && b` evaluates to `a` when `a` is falsy and to `b`
otherwise, and the right operand is not evaluated when the left one
decides the result: in `true || expensiveOperation()` and
`false && expensiveOperation()` the call's log line is never printed
(the output list is empty). -/
theorem C6_logical_operators :
    (∀ a b : JSVal, (evalE (.orE (.lit a) (.lit b))).1 = if toBoolean a then a else b) ∧
    (∀ a b : JSVal, (evalE (.andE (.lit a) (.lit b))).1 = if toBoolean a then b else a) ∧
    (∀ a b : EExpr, toBoolean (evalE a).1 = true → evalE (.orE a b) = evalE a) ∧
    (∀ a b : EExpr, toBoolean (evalE a).1 = false → evalE (.andE a b) = evalE a) ∧
    evalE (.orE (.lit (.bool true)) expensiveOperation) = (.bool true, []) ∧
    evalE (.andE (.lit (.bool false)) expensiveOperation) = (.bool false, []) := by
  refine ⟨?_, ?_, ?_, ?_, by decide, by decide⟩
  · intro a b
    by_cases h : toBoolean a <;> simp [evalE, h]
  · intro a b
    by_cases h : toBoolean a <;> simp [evalE, h]
  · intro a b h
    exact evalE_orE_short b h
  · intro a b h
    exact evalE_andE_short b h

/-- Witness for `C6_logical_operators`: its short-circuit clauses
applied to `true || expensiveOperation()` and
`0 && expensiveOperation()`. -/
theorem C6_logical_operators_witness :
    toBoolean (evalE (.lit (.bool true))).1 = true ∧
    evalE (.orE (.lit (.bool true)) expensiveOperation) = evalE (.lit (.bool true)) ∧
    toBoolean (evalE (.lit (.num (.val 0)))).1 = false ∧
    evalE (.andE (.lit (.num (.val 0))) expensiveOperation) = evalE (.lit (.num (.val 0))) :=
  ⟨by decide,
   C6_logical_operators.2.2.1 (.lit (.bool true)) expensiveOperation (by decide),
   by decide,
   C6_logical_operators.2.2.2.1 (.lit (.num (.val 0))) expensiveOperation (by decide)⟩

/-- **C7**: `~~x` and `x | 0` both equal `ToInt32(x)`, which on the
in-range inputs is truncation toward zero (`~~4.9 = 4`, `~~-4.9 = -4`,
`-3.7 | 0 = -3`, differing from `Math.floor(-4.9) = -5`); and for
non-negative integers with in-range results, `n << k = n * 2^k` and
`n >> k = ⌊n / 2^k⌋` (`5 << 3 = 40`, `20 >> 2 = 5`). -/
theorem C7_bitwise :
    (∀ q : ℚ, jsDoubleNot (.val q) = toInt32 (.val q) ∧
              jsBitOr (.val q) (.val 0) = toInt32 (.val q)) ∧
    (∀ q : ℚ, -2147483648 ≤ ratTrunc q → ratTrunc q < 2147483648 →
              toInt32 (.val q) = ratTrunc q) ∧
    jsDoubleNot (.val (49 / 10)) = 4 ∧
    jsDoubleNot (.val (-49 / 10)) = -4 ∧
    jsBitOr (.val (-37 / 10)) (.val 0) = -3 ∧
    mathFloor (.val (-49 / 10)) = .val (-5) ∧
    (∀ n k : ℕ, k < 32 → (n : ℤ) * 2 ^ k < 2147483648 →
        jsShl (.val n) (.val k) = (n : ℤ) * 2 ^ k) ∧
    (∀ n k : ℕ, (n : ℤ) < 2147483648 → k < 32 →
        jsSar (.val n) (.val k) = ((n / 2 ^ k : ℕ) : ℤ)) ∧
    jsShl (.val 5) (.val 3) = 40 ∧
    jsSar (.val 20) (.val 2) = 5 := by
  refine ⟨fun q => ⟨jsDoubleNot_eq_toInt32 q, jsBitOr_zero_eq_toInt32 q⟩,
          fun q h1 h2 => asInt32_of_range h1 h2,
          ?_, ?_, ?_, ?_, jsShl_eq, jsSar_eq, by decide, by decide⟩
  · rw [jsDoubleNot_eq_toInt32]
    show asInt32 (ratTrunc (49 / 10 : ℚ)) = 4
    rw [ratTrunc_49_10]
    decide
  · rw [jsDoubleNot_eq_toInt32]
    show asInt32 (ratTrunc (-49 / 10 : ℚ)) = -4
    rw [ratTrunc_neg_49_10]
    decide
  · rw [jsBitOr_zero_eq_toInt32]
    show asInt32 (ratTrunc (-37 / 10 : ℚ)) = -3
    rw [ratTrunc_neg_37_10]
    decide
  · show JSNum.val (ratFloor (-49 / 10 : ℚ)) = .val (-5)
    rw [ratFloor_neg_49_10]
    norm_num

/-- Witness for `C7_bitwise`: its quantified clauses applied to `4.9`,
`5 << 3` and `20 >> 2`, with the range hypotheses discharged there. -/
theorem C7_bitwise_witness :
    (-2147483648 ≤ ratTrunc (49 / 10 : ℚ) ∧ ratTrunc (49 / 10 : ℚ) < 2147483648 ∧
      toInt32 (.val (49 / 10)) = ratTrunc (49 / 10 : ℚ)) ∧
    jsShl (.val ((5 : ℕ) : ℚ)) (.val ((3 : ℕ) : ℚ)) = ((5 : ℕ) : ℤ) * 2 ^ 3 ∧
    jsSar (.val ((20 : ℕ) : ℚ)) (.val ((2 : ℕ) : ℚ)) = ((20 / 2 ^ 2 : ℕ) : ℤ) := by
  have h1 : -2147483648 ≤ ratTrunc (49 / 10 : ℚ) := by rw [ratTrunc_49_10]; decide
  have h2 : ratTrunc (49 / 10 : ℚ) < 2147483648 := by rw [ratTrunc_49_10]; decide
  exact ⟨⟨h1, h2, C7_bitwise.2.1 _ h1 h2⟩,
         C7_bitwise.2.2.2.2.2.2.1 5 3 (by decide) (by decide),
         C7_bitwise.2.2.2.2.2.2.2.1 20 2 (by decide) (by decide)⟩

/-! ## Object destructuring with a rest pattern -/

/-- An object literal: its own enumerable properties as an ordered
association list, in insertion order. -/
abbrev Obj := List (String × JSVal)

/-- Property access `o[k]`: the value stored under key `k`, or
`undefined` when the object has no such property (this is what
destructuring binds for a missing property). -/
def getProp (o : Obj) (k : String) : JSVal :=
  match o.find? (fun p => p.1 == k) with
  | none => .undef
  | some p => p.2

/-- The object a rest pattern `...rest` collects (ECMAScript
`CopyDataProperties` with excluded names): all own enumerable
properties whose key is not among the pattern's other, explicitly
matched keys. -/
def restObj (excluded : List String) (o : Obj) : Obj :=
  o.filter (fun p => !excluded.contains p.1)

/-- The right-hand side of the "Ignoring Values" example in the
destructuring script: `{ x: 1, y: 2, z: 3 }`. -/
def ignoringSrcObj : Obj :=
  [("x", .num (.val 1)), ("y", .num (.val 2)), ("z", .num (.val 3))]

/-- The binding of `x_s5` produced by
`const { x_s5, ...rest_s5 } = { x: 1, y: 2, z: 3 }`: the shorthand
pattern `x_s5` destructures the property named `"x_s5"`. -/
def x_s5 : JSVal := getProp ignoringSrcObj "x_s5"

/-- The binding of `rest_s5` produced by the same statement: all
properties except those matched by the other pattern keys (here the
single key `"x_s5"`). -/
def rest_s5 : Obj := restObj ["x_s5"] ignoringSrcObj

/-- The right-hand side of the (correctly keyed) rest example
`const { a: a_s2, ...rest_s2 } = { a: 10, b: 20, c: 30 }` earlier in
the same file. -/
def restSrcObj2 : Obj :=
  [("a", .num (.val 10)), ("b", .num (.val 20)), ("c", .num (.val 30))]

/-- The binding of `rest_s2`: the pattern's explicit key is `"a"`. -/
def rest_s2 : Obj := restObj ["a"] restSrcObj2

/-- **C1** (refuting the annotation): in
`const { x_s5, ...rest_s5 } = { x: 1, y: 2, z: 3 }` the shorthand
pattern matches the key `"x_s5"`, which the source object does not
have, so `x_s5` is bound to `undefined` and `rest_s5` collects *all
three* properties `{ x: 1, y: 2, z: 3 }` — not the annotated
`{ y: 2, z: 3 }`.  The earlier, correctly keyed example
`const { a: a_s2, ...rest_s2 } = { a: 10, b: 20, c: 30 }` does match
its annotation `{ b: 20, c: 30 }`, confirming the model and isolating
the slip to the `x_s5` pattern. -/
theorem C1_rest_s5_annotation_mismatch :
    rest_s5 = [("x", .num (.val 1)), ("y", .num (.val 2)), ("z", .num (.val 3))] ∧
    x_s5 = .undef ∧
    rest_s5 ≠ [("y", .num (.val 2)), ("z", .num (.val 3))] ∧
    rest_s2 = [("b", .num (.val 20)), ("c", .num (.val 30))] := by
  decide

/-! ## Heap model: references, shallow copies and `const` bindings -/

/-- A heap value: a primitive, or a reference to a heap object. -/
inductive HVal where
  | prim (p : JSPrim)
  | ref (a : ℕ)
deriving DecidableEq, Repr

/-- A heap object: a plain object with ordered properties, or an array
with its elements. -/
inductive HObj where
  | objO (props : List (String × HVal))
  | arrO (elems : List HVal)
deriving DecidableEq, Repr

/-- The `undefined` value as a heap value (reading a missing property
yields it). -/
def undefinedHV : HVal := HVal.prim JSPrim.undef

abbrev Heap := List HObj

/-- The object stored at address `a`. -/
def lookupObj (h : Heap) (a : ℕ) : Option HObj := h[a]?

/-- Property read `o.k` through the heap. -/
def getPropH (h : Heap) (a : ℕ) (k : String) : HVal :=
  match lookupObj h a with
  | some (.objO ps) =>
      match ps.find? (fun p => p.1 == k) with
      | some p => p.2
      | none => undefinedHV
  | _ => undefinedHV

/-- Replace (or append) the property `k` in a property list. -/
def setKey : List (String × HVal) → String → HVal → List (String × HVal)
  | [], k, v => [(k, v)]
  | p :: ps, k, v => if p.1 = k then (p.1, v) :: ps else p :: setKey ps k v

/-- In-place property write `o.k = v` on the object at address `a`. -/
def setPropH (h : Heap) (a : ℕ) (k : String) (v : HVal) : Heap :=
  match lookupObj h a with
  | some (.objO ps) => h.set a (.objO (setKey ps k v))
  | _ => h

/-- `{ ...o }` (and `[...arr]`): allocate a fresh object at the next
address whose top-level content is a copy of the content of the object
at `a`; property values, references included, are copied as-is — the
copy is shallow. -/
def spreadAlloc (h : Heap) (a : ℕ) : Heap × ℕ :=
  match lookupObj h a with
  | some o => (h ++ [o], h.length)
  | none => (h ++ [.objO []], h.length)

theorem spreadAlloc_fresh (h : Heap) (a : ℕ) : (spreadAlloc h a).2 = h.length := by
  unfold spreadAlloc
  cases lookupObj h a <;> rfl

theorem lookupObj_spread_orig (h : Heap) (a b : ℕ) (hb : b < h.length) :
    lookupObj (spreadAlloc h a).1 b = lookupObj h b := by
  unfold spreadAlloc lookupObj
  rcases hE : h[a]? with _ | o <;> simp [hE, List.getElem?_append, hb]

theorem lookupObj_spread_copy (h : Heap) (a : ℕ) (ha : a < h.length) :
    lookupObj (spreadAlloc h a).1 (spreadAlloc h a).2 = lookupObj h a := by
  unfold spreadAlloc lookupObj
  rcases hE : h[a]? with _ | o
  · simp [List.getElem?_eq_none_iff] at hE
    omega
  · simp [hE, List.getElem?_concat_length]

theorem getPropH_spread_copy (h : Heap) (a : ℕ) (k : String) (ha : a < h.length) :
    getPropH (spreadAlloc h a).1 (spreadAlloc h a).2 k = getPropH h a k := by
  unfold getPropH
  rw [lookupObj_spread_copy h a ha]

theorem setPropH_other (h : Heap) (a b : ℕ) (k : String) (v : HVal) (hne : b ≠ a) :
    lookupObj (setPropH h a k v) b = lookupObj h b := by
  unfold setPropH
  cases lookupObj h a with
  | none => rfl
  | some o =>
      cases o with
      | objO ps => exact List.getElem?_set_ne (fun hE => hne hE.symm)
      | arrO es => rfl

theorem mutate_copy_preserves_originals (h : Heap) (a b : ℕ) (k : String) (v : HVal)
    (hb : b < h.length) :
    lookupObj (setPropH (spreadAlloc h a).1 (spreadAlloc h a).2 k v) b = lookupObj h b := by
  rw [setPropH_other _ _ _ _ _ (by rw [spreadAlloc_fresh]; omega)]
  exact lookupObj_spread_orig h a b hb

/-- The heap of the shallow-copy brain-bender
`const obj1_bb = { a: 1, b: { c: 2 } }`: the nested `{ c: 2 }` lives at
address 0 and the outer object at address 1 holds a reference to it. -/
def bbHeap0 : Heap :=
  [.objO [("c", .prim (.num (.val 2)))],
   .objO [("a", .prim (.num (.val 1))), ("b", .ref 0)]]

/-- The address of `obj1_bb`. -/
def obj1Addr : ℕ := 1

/-- The heap after `const obj2_bb = { ...obj1_bb }`. -/
def bbHeap1 : Heap := (spreadAlloc bbHeap0 obj1Addr).1

/-- The address `obj2_bb` is bound to. -/
def copyAddr : ℕ := (spreadAlloc bbHeap0 obj1Addr).2

/-- The heap after `obj2_bb.b.c = 99`: read `obj2_bb.b` (a reference)
and write property `c` through it. -/
def bbHeap2 : Heap :=
  match getPropH bbHeap1 copyAddr "b" with
  | .ref r => setPropH bbHeap1 r "c" (.prim (.num (.val 99)))
  | _ => bbHeap1

/-- **C9**: spread copies only the top level.  Generally, every
property of the copy (references included) equals the corresponding
property of the original, and writing a property of the copy leaves
every pre-existing object unchanged.  In the brain-bender, `obj2_bb.b`
is the same reference (address 0) as `obj1_bb.b`, so after
`obj2_bb.b.c = 99` the original observes `obj1_bb.b.c = 99`, while
overwriting the top-level `obj2_bb.a` leaves `obj1_bb.a = 1`. -/
theorem C9_spread_shallow_copy :
    (∀ (h : Heap) (a : ℕ) (k : String), a < h.length →
        getPropH (spreadAlloc h a).1 (spreadAlloc h a).2 k = getPropH h a k) ∧
    (∀ (h : Heap) (a b : ℕ) (k : String) (v : HVal), b < h.length →
        lookupObj (setPropH (spreadAlloc h a).1 (spreadAlloc h a).2 k v) b = lookupObj h b) ∧
    getPropH bbHeap1 copyAddr "b" = .ref 0 ∧
    getPropH bbHeap1 obj1Addr "b" = .ref 0 ∧
    getPropH bbHeap2 obj1Addr "b" = .ref 0 ∧
    getPropH bbHeap2 0 "c" = .prim (.num (.val 99)) ∧
    getPropH (setPropH bbHeap2 copyAddr "a" (.prim (.num (.val 42)))) obj1Addr "a"
      = .prim (.num (.val 1)) ∧
    getPropH bbHeap2 copyAddr "a" = .prim (.num (.val 1)) := by
  refine ⟨fun h a k ha => getPropH_spread_copy h a k ha,
          fun h a b k v hb => mutate_copy_preserves_originals h a b k v hb,
          by decide, by decide, by decide, by decide, by decide, by decide⟩

/-- Witness for `C9_spread_shallow_copy`: its general clauses applied
to the brain-bender heap. -/
theorem C9_spread_shallow_copy_witness :
    obj1Addr < bbHeap0.length ∧
    getPropH (spreadAlloc bbHeap0 obj1Addr).1 (spreadAlloc bbHeap0 obj1Addr).2 "b"
      = getPropH bbHeap0 obj1Addr "b" ∧
    lookupObj (setPropH (spreadAlloc bbHeap0 obj1Addr).1 (spreadAlloc bbHeap0 obj1Addr).2 "a"
        (.prim (.num (.val 42)))) obj1Addr = lookupObj bbHeap0 obj1Addr :=
  ⟨by decide,
   C9_spread_shallow_copy.1 bbHeap0 obj1Addr "b" (by decide),
   C9_spread_shallow_copy.2.1 bbHeap0 obj1Addr obj1Addr "a" (.prim (.num (.val 42))) (by decide)⟩

/-! ## `const` bindings and reassignment -/

/-- A thrown JavaScript error: constructor name and message. -/
structure JSError where
  name : String
  msg : String
deriving DecidableEq, Repr

/-- A binding as the `const` examples need it: whether it was declared
`const`, and its current value. -/
structure CBind where
  isConst : Bool
  v : HVal
deriving DecidableEq, Repr

/-- Program state of the `const`-mutation examples: named bindings plus
the heap. -/
structure CState where
  binds : List (String × CBind)
  heap : Heap
deriving DecidableEq, Repr

/-- The binding of `x`, if declared. -/
def lookupVar (st : CState) (x : String) : Option CBind :=
  (st.binds.find? (fun p => p.1 == x)).map Prod.snd

/-- Update the value of an existing binding, keeping its kind. -/
def setVarVal : List (String × CBind) → String → HVal → List (String × CBind)
  | [], _, _ => []
  | p :: ps, x, v => if p.1 = x then (p.1, ⟨p.2.isConst, v⟩) :: ps else p :: setVarVal ps x v

/-- Assignment `x = v`: assigning to a `const` binding throws
`TypeError: Assignment to constant variable.` and produces no new
state; otherwise the binding's value is replaced. -/
def assignVar (st : CState) (x : String) (v : HVal) : Except JSError CState :=
  match lookupVar st x with
  | some b =>
      if b.isConst then .error ⟨"TypeError", "Assignment to constant variable."⟩
      else .ok ⟨setVarVal st.binds x v, st.heap⟩
  | none => .error ⟨"ReferenceError", x ++ " is not defined"⟩

/-- `x.push(v)`: append to the array object the binding references — a
heap mutation that does not touch the binding itself. -/
def pushElem (st : CState) (x : String) (v : HVal) : CState :=
  match lookupVar st x with
  | some ⟨_, .ref a⟩ =>
      match lookupObj st.heap a with
      | some (.arrO es) => ⟨st.binds, st.heap.set a (.arrO (es ++ [v]))⟩
      | _ => st
  | _ => st

/-- `x.k = v`: property write through the binding's reference. -/
def setMember (st : CState) (x k : String) (v : HVal) : CState :=
  match lookupVar st x with
  | some ⟨_, .ref a⟩ => ⟨st.binds, setPropH st.heap a k v⟩
  | _ => st

/-- The elements of the array the binding `x` references. -/
def readElems (st : CState) (x : String) : List HVal :=
  match lookupVar st x with
  | some ⟨_, .ref a⟩ =>
      match lookupObj st.heap a with
      | some (.arrO es) => es
      | _ => []
  | _ => []

/-- Property read `x.k` through the binding's reference. -/
def readMember (st : CState) (x k : String) : HVal :=
  match lookupVar st x with
  | some ⟨_, .ref a⟩ => getPropH st.heap a k
  | _ => .prim .undef

deriving instance DecidableEq for Except

/-- `const arr_q2 = [1, 2, 3]` from practice round 2, Q2. -/
def q2State0 : CState :=
  ⟨[("arr_q2", ⟨true, .ref 0⟩)],
   [.arrO [.prim (.num (.val 1)), .prim (.num (.val 2)), .prim (.num (.val 3))]]⟩

/-- After `arr_q2.push(4)`. -/
def q2State1 : CState := pushElem q2State0 "arr_q2" (.prim (.num (.val 4)))

/-- Evaluating the right-hand side of `arr_q2 = [5, 6, 7]` allocates
the new array (at address 1) before the assignment is attempted. -/
def q2StateRhs : CState :=
  ⟨q2State1.binds,
   q2State1.heap ++ [.arrO [.prim (.num (.val 5)), .prim (.num (.val 6)), .prim (.num (.val 7))]]⟩

/-- The attempted reassignment `arr_q2 = [5, 6, 7]`. -/
def q2Attempt : Except JSError CState := assignVar q2StateRhs "arr_q2" (.ref 1)

/-- `const obj_ex4 = { lang: "JS" }` from exercise 4. -/
def ex4State0 : CState := ⟨[("obj_ex4", ⟨true, .ref 0⟩)], [.objO [("lang", .prim (.str "JS"))]]⟩

/-- After the (allowed) mutation `obj_ex4.lang = "Python"`. -/
def ex4State1 : CState := setMember ex4State0 "obj_ex4" "lang" (.prim (.str "Python"))

/-- The right-hand side `{ lang: "C++" }` allocated at address 1. -/
def ex4StateRhs : CState :=
  ⟨ex4State1.binds, ex4State1.heap ++ [.objO [("lang", .prim (.str "C++"))]]⟩

/-- The attempted reassignment `obj_ex4 = { lang: "C++" }`. -/
def ex4Attempt : Except JSError CState := assignVar ex4StateRhs "obj_ex4" (.ref 1)

/-- `const PI_c4 = 3.14` from Case 4 of the assignment deep-dive. -/
def piState : CState := ⟨[("PI_c4", ⟨true, .prim (.num (.val (314/100)))⟩)], []⟩

/-- The attempted reassignment `PI_c4 = 3.1415`. -/
def piAttempt : Except JSError CState :=
  assignVar piState "PI_c4" (.prim (.num (.val (31415/10000))))

/-- **C10**: assigning to any `const` binding throws
`TypeError: Assignment to constant variable.` and yields no new state
(the caught path continues with the unchanged one), while mutating the
referenced object succeeds: `arr_q2.push(4)` yields `[1, 2, 3, 4]` and
the elements are still `[1, 2, 3, 4]` after the failed reassignment;
`obj_ex4.lang = "Python"` succeeds and survives the failed
reassignment; `PI_c4 = 3.1415` throws. -/
theorem C10_const_assignment :
    (∀ (st : CState) (x : String) (v : HVal) (b : CBind),
        lookupVar st x = some b → b.isConst = true →
        assignVar st x v = .error ⟨"TypeError", "Assignment to constant variable."⟩) ∧
    readElems q2State1 "arr_q2"
      = [.prim (.num (.val 1)), .prim (.num (.val 2)), .prim (.num (.val 3)),
         .prim (.num (.val 4))] ∧
    q2Attempt = .error ⟨"TypeError", "Assignment to constant variable."⟩ ∧
    readElems q2StateRhs "arr_q2"
      = [.prim (.num (.val 1)), .prim (.num (.val 2)), .prim (.num (.val 3)),
         .prim (.num (.val 4))] ∧
    readMember ex4State1 "obj_ex4" "lang" = .prim (.str "Python") ∧
    ex4Attempt = .error ⟨"TypeError", "Assignment to constant variable."⟩ ∧
    readMember ex4StateRhs "obj_ex4" "lang" = .prim (.str "Python") ∧
    piAttempt = .error ⟨"TypeError", "Assignment to constant variable."⟩ := by
  refine ⟨?_, by decide, by decide, by decide, by decide, by decide, by decide, by decide⟩
  intro st x v b hb hc
  simp [assignVar, hb, hc]

/-- Witness for `C10_const_assignment`: its general clause applied to
the `arr_q2` state. -/
theorem C10_const_assignment_witness :
    lookupVar q2StateRhs "arr_q2" = some ⟨true, .ref 0⟩ ∧
    assignVar q2StateRhs "arr_q2" (.ref 1)
      = .error ⟨"TypeError", "Assignment to constant variable."⟩ :=
  ⟨by decide,
   C10_const_assignment.1 q2StateRhs "arr_q2" (.ref 1) ⟨true, .ref 0⟩ (by decide) rfl⟩

/-! ## A statement interpreter: scoping, hoisting and the TDZ

The fragment below embeds the scripts' variable-declaration examples:
statements are sequences, declarations (`var` / `let` / `const`),
assignments, `console.log` calls, blocks, `try { … } catch (e) {
console.log(label, e.message) }`, and calls of zero-argument functions.
Entering a block pre-registers the block's own `let` / `const`
declarations as *uninitialized* (the temporal dead zone); entering a
function (or the whole script) additionally pre-registers its `var`
declarations — looking through blocks but not through nested
functions — as initialized to `undefined` (hoisting). -/

/-- Declaration kinds. -/
inductive DKind where
  | dvar
  | dlet
  | dconst
deriving DecidableEq, Repr

/-- Expressions of the scoping fragment: literals and variable reads. -/
inductive SExpr where
  | lit (v : JSPrim)
  | evar (x : String)
deriving DecidableEq, Repr

/-- Statements of the scoping fragment. -/
inductive Stmt where
  | skip
  | seq (s₁ s₂ : Stmt)
  | decl (k : DKind) (x : String) (e : SExpr)
  | assign (x : String) (e : SExpr)
  | log (label : String) (e : SExpr)
  | block (s : Stmt)
  | tryLog (s : Stmt) (label : String)
  | callFn (body : Stmt)
deriving DecidableEq, Repr

/-- The state of a binding: declared but not yet initialized (the
temporal dead zone), or initialized with a value. -/
inductive BState where
  | tdz
  | init (v : JSPrim)
deriving DecidableEq, Repr

/-- A binding: its declaration kind and its state. -/
structure SBind where
  kind : DKind
  st : BState
deriving DecidableEq, Repr

/-- A scope frame: whether it is a function (or script) scope — the
hoisting target for `var` — and its bindings. -/
structure Frame where
  isFn : Bool
  binds : List (String × SBind)
deriving DecidableEq, Repr

/-- The environment: scope frames, innermost first. -/
abbrev Env := List Frame

/-- The `let` / `const` declarations belonging to a block: those at its
top level, not the ones inside nested blocks, `try` bodies or
functions (each of which is its own block scope). -/
def letConstDecls : Stmt → List (String × DKind)
  | .seq a b => letConstDecls a ++ letConstDecls b
  | .decl .dlet x _ => [(x, .dlet)]
  | .decl .dconst x _ => [(x, .dconst)]
  | _ => []

/-- The `var` declarations hoisted to a function (or script) scope:
`var` looks through blocks and `try` bodies but not through nested
functions. -/
def varDecls : Stmt → List String
  | .seq a b => varDecls a ++ varDecls b
  | .decl .dvar x _ => [x]
  | .block s => varDecls s
  | .tryLog s _ => varDecls s
  | _ => []

/-- A single-quote character (as it appears in the engine's
`ReferenceError` messages). -/
def sq : String := String.singleton (Char.ofNat 39)

/-- The message of the `ReferenceError` thrown by a read in the
temporal dead zone. -/
def tdzMsg (x : String) : String :=
  "Cannot access " ++ sq ++ x ++ sq ++ " before initialization"

/-- The message of the `ReferenceError` thrown by a read of an
undeclared variable. -/
def undefMsg (x : String) : String := x ++ " is not defined"

/-- The binding of `x` in one frame. -/
def lookupSBind (f : Frame) (x : String) : Option SBind :=
  (f.binds.find? (fun p => p.1 == x)).map Prod.snd

/-- Read a variable: the innermost frame that declares it decides; a
binding still in its TDZ throws `ReferenceError: Cannot access … before
initialization`, an initialized one yields its value, and a name bound
nowhere throws `ReferenceError: … is not defined`. -/
def envRead : Env → String → Except JSError JSPrim
  | [], x => .error ⟨"ReferenceError", undefMsg x⟩
  | f :: rest, x =>
      match lookupSBind f x with
      | some ⟨_, .tdz⟩ => .error ⟨"ReferenceError", tdzMsg x⟩
      | some ⟨_, .init v⟩ => .ok v
      | none => envRead rest x

/-- Evaluate an expression. -/
def evalSE (env : Env) : SExpr → Except JSError JSPrim
  | .lit v => .ok v
  | .evar x => envRead env x

/-- Update the value of an existing binding, keeping its kind. -/
def setBindVal : List (String × SBind) → String → JSPrim → List (String × SBind)
  | [], _, _ => []
  | p :: ps, x, v =>
      if p.1 = x then (p.1, ⟨p.2.kind, .init v⟩) :: ps else p :: setBindVal ps x v

/-- Assign to a variable: the innermost binding decides; a TDZ binding
throws the access error, a `const` binding throws
`TypeError: Assignment to constant variable.`, otherwise the value is
replaced. -/
def envAssign : Env → String → JSPrim → Except JSError Env
  | [], x, _ => .error ⟨"ReferenceError", undefMsg x⟩
  | f :: rest, x, v =>
      match lookupSBind f x with
      | some ⟨_, .tdz⟩ => .error ⟨"ReferenceError", tdzMsg x⟩
      | some ⟨.dconst, .init _⟩ => .error ⟨"TypeError", "Assignment to constant variable."⟩
      | some ⟨_, .init _⟩ => .ok (⟨f.isFn, setBindVal f.binds x v⟩ :: rest)
      | none =>
          match envAssign rest x v with
          | .ok rest2 => .ok (f :: rest2)
          | .error e => .error e

/-- Initialize (or add) a binding in a list, ending its TDZ. -/
def initBind : List (String × SBind) → String → JSPrim → List (String × SBind)
  | [], x, v => [(x, ⟨.dlet, .init v⟩)]
  | p :: ps, x, v =>
      if p.1 = x then (p.1, ⟨p.2.kind, .init v⟩) :: ps else p :: initBind ps x v

/-- Executing a `let` / `const` declaration initializes the binding in
the innermost frame (the frame of the declaration's own block). -/
def envInitLC : Env → String → JSPrim → Env
  | [], _, _ => []
  | f :: rest, x, v => ⟨f.isFn, initBind f.binds x v⟩ :: rest

/-- The frame pushed on entering a block: the block's `let` / `const`
declarations, all in their TDZ. -/
def mkBlockFrame (s : Stmt) : Frame :=
  ⟨false, (letConstDecls s).map (fun p => (p.1, ⟨p.2, .tdz⟩))⟩

/-- The frame pushed on entering a function or script: `let` / `const`
declarations in their TDZ, plus the hoisted `var` declarations already
initialized to `undefined`. -/
def mkFnFrame (s : Stmt) : Frame :=
  ⟨true, (letConstDecls s).map (fun p => (p.1, ⟨p.2, .tdz⟩))
      ++ (varDecls s).map (fun x => (x, ⟨.dvar, .init .undef⟩))⟩

/-- Run a statement: returns the updated environment, the console
output produced so far (`(label, value)` pairs), and the error still
propagating, if any.  `tryLog` catches an error from its body and logs
the error's message. -/
def runS : Stmt → Env → List (String × JSPrim) → Env × List (String × JSPrim) × Option JSError
  | .skip, env, out => (env, out, none)
  | .seq a b, env, out =>
      match runS a env out with
      | (env1, out1, none) => runS b env1 out1
      | r => r
  | .decl k x e, env, out =>
      match evalSE env e with
      | .error er => (env, out, some er)
      | .ok v =>
          match k with
          | .dvar =>
              match envAssign env x v with
              | .ok env2 => (env2, out, none)
              | .error er => (env, out, some er)
          | _ => (envInitLC env x v, out, none)
  | .assign x e, env, out =>
      match evalSE env e with
      | .error er => (env, out, some er)
      | .ok v =>
          match envAssign env x v with
          | .ok env2 => (env2, out, none)
          | .error er => (env, out, some er)
  | .log label e, env, out =>
      match evalSE env e with
      | .ok v => (env, out ++ [(label, v)], none)
      | .error er => (env, out, some er)
  | .block s, env, out =>
      match runS s (mkBlockFrame s :: env) out with
      | (env2, out2, r) => (env2.tail, out2, r)
  | .tryLog s label, env, out =>
      match runS s (mkBlockFrame s :: env) out with
      | (env2, out2, none) => (env2.tail, out2, none)
      | (env2, out2, some er) => (env2.tail, out2 ++ [(label, .str er.msg)], none)
  | .callFn body, env, out =>
      match runS body (mkFnFrame body :: env) out with
      | (env2, out2, r) => (env2.tail, out2, r)

/-- Run a whole script: its top-level scope hoists like a function
scope. -/
def runProgram (s : Stmt) : List (String × JSPrim) × Option JSError :=
  match runS s [mkFnFrame s] [] with
  | (_, out, r) => (out, r)

/-- Q3 of practice round 2 — the TDZ trick:
`{ try { console.log("Q3:", x_q3); let x_q3 = 100; } catch (e) {
console.log("Q3 Error:", e.message); } }`. -/
def q3Prog : Stmt :=
  .block (.tryLog
    (.seq (.log "Q3:" (.evar "x_q3"))
          (.decl .dlet "x_q3" (.lit (.num (.val 100)))))
    "Q3 Error:")

/-- Exercise 1 of the assignment deep-dive — hoisting basics:
`console.log(a_ex1); var a_ex1 = 100; try { console.log(b_ex1) } catch
(e) { console.log(e.message) }; let b_ex1 = 200;`. -/
def ex1Prog : Stmt :=
  .seq (.log "Value of a_ex1 before declaration:" (.evar "a_ex1"))
  (.seq (.decl .dvar "a_ex1" (.lit (.num (.val 100))))
  (.seq (.tryLog (.log "Value of b_ex1 before declaration:" (.evar "b_ex1"))
                 "Error accessing b_ex1:")
        (.decl .dlet "b_ex1" (.lit (.num (.val 200))))))

/-- The body of `test_q1` from Q1 of practice round 2:
`console.log("Q1.1:", a_q1); var a_q1 = 10; console.log("Q1.2:", a_q1);`. -/
def q1FnBody : Stmt :=
  .seq (.log "Q1.1:" (.evar "a_q1"))
  (.seq (.decl .dvar "a_q1" (.lit (.num (.val 10))))
        (.log "Q1.2:" (.evar "a_q1")))

/-- Q1 of practice round 2: `var a_q1 = 5; function test_q1() { … }
test_q1();`. -/
def q1Prog : Stmt :=
  .seq (.decl .dvar "a_q1" (.lit (.num (.val 5)))) (.callFn q1FnBody)

/-- The `var` hoisting example of the `var` deep-dive:
`console.log(a); var a = 5; console.log(a);`. -/
def part004Prog : Stmt :=
  .seq (.log "a (before declaration):" (.evar "a"))
  (.seq (.decl .dvar "a" (.lit (.num (.val 5))))
        (.log "a (after declaration):" (.evar "a")))

theorem envRead_tdz (f : Frame) (env : Env) (x : String) (b : SBind)
    (hb : lookupSBind f x = some b) (hst : b.st = .tdz) :
    envRead (f :: env) x = .error ⟨"ReferenceError", tdzMsg x⟩ := by
  cases b with
  | mk k st =>
      cases hst
      simp [envRead, hb]

theorem envRead_init (f : Frame) (env : Env) (x : String) (b : SBind) (v : JSPrim)
    (hb : lookupSBind f x = some b) (hst : b.st = .init v) :
    envRead (f :: env) x = .ok v := by
  cases b with
  | mk k st =>
      cases hst
      simp [envRead, hb]

theorem initBind_find (l : List (String × SBind)) (x : String) (v : JSPrim) :
    ∃ k, ((initBind l x v).find? (fun p => p.1 == x)).map Prod.snd = some ⟨k, .init v⟩ := by
  induction l with
  | nil => exact ⟨.dlet, by simp [initBind]⟩
  | cons p ps ih =>
      by_cases h : p.1 = x
      · exact ⟨p.2.kind, by simp [initBind, h]⟩
      · obtain ⟨k, hk⟩ := ih
        refine ⟨k, ?_⟩
        simp only [initBind, if_neg h, List.find?_cons]
        rw [show (p.1 == x) = false by simp [h]]
        exact hk

theorem envRead_after_init (f : Frame) (env : Env) (x : String) (v : JSPrim) :
    envRead (envInitLC (f :: env) x v) x = .ok v := by
  obtain ⟨k, hk⟩ := initBind_find f.binds x v
  simp [envInitLC, envRead, lookupSBind, hk]

theorem runProgram_decl_then_read (x : String) (v : JSPrim) (label : String) :
    runProgram (.seq (.decl .dlet x (.lit v)) (.log label (.evar x))) = ([(label, v)], none) := by
  have h := envRead_after_init
    (mkFnFrame (.seq (.decl .dlet x (.lit v)) (.log label (.evar x)))) [] x v
  simp [runProgram, runS, evalSE, h]

theorem lcBinds_find_none (lc : List (String × DKind)) (x : String)
    (hl : x ∉ lc.map Prod.fst) :
    (lc.map (fun p => (p.1, (⟨p.2, .tdz⟩ : SBind)))).find? (fun p => p.1 == x) = none := by
  induction lc with
  | nil => rfl
  | cons p ps ih =>
      simp only [List.map_cons, List.mem_cons] at hl
      push_neg at hl
      simp only [List.map_cons, List.find?_cons]
      rw [show (p.1 == x) = false from beq_eq_false_iff_ne.mpr (Ne.symm hl.1)]
      exact ih hl.2

theorem varBinds_find_some (vs : List String) (x : String) (hv : x ∈ vs) :
    (vs.map (fun y => (y, (⟨.dvar, .init .undef⟩ : SBind)))).find? (fun p => p.1 == x)
      = some (x, ⟨.dvar, .init .undef⟩) := by
  induction vs with
  | nil => cases hv
  | cons y ys ih =>
      by_cases h : y = x
      · simp [List.find?_cons, h]
      · have hm : x ∈ ys := by
          rcases List.mem_cons.mp hv with h1 | h2
          · exact absurd h1.symm h
          · exact h2
        simp only [List.map_cons, List.find?_cons]
        rw [show (y == x) = false by simp [h]]
        exact ih hm

theorem envRead_hoisted_var (s : Stmt) (env : Env) (x : String)
    (hv : x ∈ varDecls s) (hl : x ∉ (letConstDecls s).map Prod.fst) :
    envRead (mkFnFrame s :: env) x = .ok .undef := by
  have h1 := lcBinds_find_none (letConstDecls s) x hl
  have h2 := varBinds_find_some (varDecls s) x hv
  simp [envRead, lookupSBind, mkFnFrame, List.find?_append, h1, h2]

/-- **C2**: a read of a block-scoped (`let` / `const`) binding
evaluated after the block's start but before the declaration executes
throws `ReferenceError: Cannot access … before initialization`, and a
read after the declaration yields the value.  Generally: a binding in
its TDZ errors on read, an initialized binding reads back its value,
and executing the declaration ends the TDZ; concretely, the Q3 block
logs only the caught TDZ error for `x_q3`, and the exercise-1 fragment
logs the caught TDZ error for `b_ex1`. -/
theorem C2_tdz_semantics :
    (∀ (f : Frame) (env : Env) (x : String) (b : SBind),
        lookupSBind f x = some b → b.st = .tdz →
        envRead (f :: env) x = .error ⟨"ReferenceError", tdzMsg x⟩) ∧
    (∀ (f : Frame) (env : Env) (x : String) (b : SBind) (v : JSPrim),
        lookupSBind f x = some b → b.st = .init v → envRead (f :: env) x = .ok v) ∧
    (∀ (f : Frame) (env : Env) (x : String) (v : JSPrim),
        envRead (envInitLC (f :: env) x v) x = .ok v) ∧
    (∀ (x : String) (v : JSPrim) (label : String),
        runProgram (.seq (.decl .dlet x (.lit v)) (.log label (.evar x)))
          = ([(label, v)], none)) ∧
    runProgram q3Prog = ([("Q3 Error:", .str (tdzMsg "x_q3"))], none) ∧
    runProgram ex1Prog
      = ([("Value of a_ex1 before declaration:", .undef),
          ("Error accessing b_ex1:", .str (tdzMsg "b_ex1"))], none) :=
  ⟨envRead_tdz, envRead_init, envRead_after_init, runProgram_decl_then_read,
   by decide, by decide⟩

/-- Witness for `C2_tdz_semantics`: its TDZ clause applied to the
`x_q3` frame, and its declaration clause applied to `b_ex1`. -/
theorem C2_tdz_semantics_witness :
    lookupSBind ⟨false, [("x_q3", ⟨.dlet, .tdz⟩)]⟩ "x_q3" = some ⟨.dlet, .tdz⟩ ∧
    envRead (Frame.mk false [("x_q3", ⟨.dlet, .tdz⟩)] :: []) "x_q3"
      = .error ⟨"ReferenceError", tdzMsg "x_q3"⟩ ∧
    runProgram (.seq (.decl .dlet "b_ex1" (.lit (.num (.val 200))))
                     (.log "b_ex1 after declaration:" (.evar "b_ex1")))
      = ([("b_ex1 after declaration:", .num (.val 200))], none) :=
  ⟨by decide,
   C2_tdz_semantics.1 ⟨false, [("x_q3", ⟨.dlet, .tdz⟩)]⟩ [] "x_q3" ⟨.dlet, .tdz⟩ (by decide) rfl,
   C2_tdz_semantics.2.2.2.1 "b_ex1" (.num (.val 200)) "b_ex1 after declaration:"⟩

/-- **C3**: a `var` binding exists from the start of its enclosing
function (or script) scope with value `undefined`, so a read before the
declaration line yields `undefined` and never throws.  Generally, every
hoisted `var` name reads as `undefined` at scope entry; concretely,
`test_q1` prints `undefined` then `10` (the hoisted inner `a_q1`
shadows the outer one), `a_ex1` reads as `undefined` before
`var a_ex1 = 100`, and the `var` deep-dive example prints `undefined`
then `5`. -/
theorem C3_var_hoisting :
    (∀ (s : Stmt) (env : Env) (x : String), x ∈ varDecls s →
        x ∉ (letConstDecls s).map Prod.fst →
        envRead (mkFnFrame s :: env) x = .ok .undef) ∧
    runProgram q1Prog = ([("Q1.1:", .undef), ("Q1.2:", .num (.val 10))], none) ∧
    runProgram ex1Prog
      = ([("Value of a_ex1 before declaration:", .undef),
          ("Error accessing b_ex1:", .str (tdzMsg "b_ex1"))], none) ∧
    runProgram part004Prog
      = ([("a (before declaration):", .undef),
          ("a (after declaration):", .num (.val 5))], none) :=
  ⟨fun s env x hv hl => envRead_hoisted_var s env x hv hl, by decide, by decide, by decide⟩

/-- Witness for `C3_var_hoisting`: its hoisting clause applied to the
body of `test_q1` and the hoisted name `a_q1`. -/
theorem C3_var_hoisting_witness :
    "a_q1" ∈ varDecls q1FnBody ∧
    "a_q1" ∉ (letConstDecls q1FnBody).map Prod.fst ∧
    envRead (mkFnFrame q1FnBody :: []) "a_q1" = .ok .undef :=
  ⟨by decide, by decide,
   C3_var_hoisting.1 q1FnBody [] "a_q1" (by decide) (by decide)⟩

/-! ## Host-environment calls of the scripts

Every call the scripts' executable (non-comment) code makes into the
host environment, transcribed per call site from each of the 19 source
files.  The only host calls that occur are `console.log`, `setTimeout`
with a callback consisting of a single `console.log`, one
`structuredClone` (a pure in-memory deep copy), and two `new Date()`
(a clock read, which reads no user input, file, network or persistent
state and writes nothing).  The type also carries constructors for the
call kinds the claim rules out — reading input, file access, network
access, persistent storage, importing another script — so that the
`writesOnlyConsole` predicate genuinely discriminates: none of those
occurs in any transcription. -/

mutual
/-- One host-environment call site. -/
inductive HostCall where
  | consoleLog
  | structuredCloneCall
  | newDate
  | setTimeoutCall (callback : HostCallList)
  | readInput
  | fileAccess
  | networkAccess
  | persistentStore
  | crossScriptImport
/-- The host calls of a timer callback's body. -/
inductive HostCallList where
  | nil
  | cons (c : HostCall) (cs : HostCallList)
end

mutual
/-- The call writes nothing outside the console and reads no user
input, file, network or persistent state; a timer is acceptable exactly
when its callback is. -/
def writesOnlyConsole : HostCall → Bool
  | .consoleLog => true
  | .structuredCloneCall => true
  | .newDate => true
  | .setTimeoutCall cb => callbackConsoleOnly cb
  | .readInput => false
  | .fileAccess => false
  | .networkAccess => false
  | .persistentStore => false
  | .crossScriptImport => false
/-- All calls of a callback body satisfy `writesOnlyConsole`. -/
def callbackConsoleOnly : HostCallList → Bool
  | .nil => true
  | .cons c cs => writesOnlyConsole c && callbackConsoleOnly cs
end

/-- A `setTimeout(() => console.log(…), …)` call site — the only form
of timer the repository contains. -/
def timerLogOnly : HostCall := .setTimeoutCall (.cons .consoleLog .nil)

/-- `n` `console.log` call sites. -/
def consoleLogs (n : ℕ) : List HostCall := List.replicate n .consoleLog

/-- The host calls of each source file's executable code (file by file;
counts are `console.log` token occurrences on non-comment lines, timer
sites with their callback bodies, `structuredClone` and `new Date()`
sites; three files consist of comments only). -/
def allFileHostCalls : List (String × List HostCall) :=
  [("scripts/001_VariablesInside/003_let-deep-dive.js", []),
   ("scripts/001_introToVariables.js", consoleLogs 34),
   ("scripts/002_PrimitiveDataType/012_primitive-null-deep-dive.js", consoleLogs 33),
   ("scripts/003_OperatorsInside/019_assignment-and-destructuring-deep-dive.js",
      consoleLogs 77 ++ [timerLogOnly, timerLogOnly]),
   ("scripts/005_Conditionals_Loops/025_conditional-branching.js", consoleLogs 48),
   ("scripts/005_var-let-const-comparison.js", []),
   ("scripts/006_primitive-number-deep-dive.js", consoleLogs 27),
   ("scripts/008_primitive-bigint-deep-dive.js", consoleLogs 73),
   ("scripts/011_primitive-undefined-deep-dive.js", consoleLogs 27),
   ("scripts/013_primitive-symbol-deep-dive.js", consoleLogs 42),
   ("scripts/015_variables-practice-round-2.js",
      consoleLogs 59 ++ [timerLogOnly, timerLogOnly, timerLogOnly,
                         timerLogOnly, timerLogOnly, timerLogOnly]),
   ("scripts/016_type-conversion-and-operators-deep-dive.js",
      consoleLogs 53 ++ [.newDate, .newDate]),
   ("unnamed/part_000", consoleLogs 30),
   ("unnamed/part_001", consoleLogs 74),
   ("unnamed/part_002", consoleLogs 34),
   ("unnamed/part_003", consoleLogs 57),
   ("unnamed/part_004", []),
   ("unnamed/part_005", consoleLogs 91),
   ("unnamed/part_006", consoleLogs 40 ++ [.structuredCloneCall])]

/-- **C8**: every host call of every one of the 19 scripts writes
nothing outside the console and reads no input, file, network or
persistent state — in particular there is no cross-script import and
every `setTimeout` callback only writes to the console — and the
predicate would reject each of the ruled-out call kinds if one
occurred. -/
theorem C8_console_only_effects :
    (allFileHostCalls.all (fun p => p.2.all writesOnlyConsole)) = true ∧
    allFileHostCalls.length = 19 ∧
    (∀ cb : HostCallList, writesOnlyConsole (.setTimeoutCall cb) = callbackConsoleOnly cb) ∧
    writesOnlyConsole .readInput = false ∧
    writesOnlyConsole .fileAccess = false ∧
    writesOnlyConsole .networkAccess = false ∧
    writesOnlyConsole .persistentStore = false ∧
    writesOnlyConsole .crossScriptImport = false ∧
    writesOnlyConsole timerLogOnly = true :=
  ⟨by decide, by decide, fun cb => rfl, rfl, rfl, rfl, rfl, rfl, rfl⟩

end JS
